import Mathlib

/-!
Verification of the data-transformation core of the Automated-EC2-Reports
pipeline (data exporter and report generator Lambdas), shallowly embedded
in Lean 4.  Numeric CPU statistics are modelled as rationals; datetimes as
natural-number epoch seconds, with the calendar date of a datetime being
its day index (`ts / 86400`), so that formatting a datetime as `YYYY-MM-DD`
is modelled by dropping the time-of-day component.
-/

namespace EC2Reports

/-- Rounding to 2 decimal places, modelling Python `round(x, 2)` and the
`:.2f` display format. -/
def round2 (x : ℚ) : ℚ := (round (x * 100) : ℤ) / 100

/-- A value carries at most 2 decimal places: it is a fixed point of
`round2`. -/
def isRound2 (x : ℚ) : Prop := round2 x = x

instance (x : ℚ) : Decidable (isRound2 x) := by
  unfold isRound2; infer_instance

/-! ## Exporter stage (`src/lambda/data_exporter/lambda_function.py`) -/

/-- One raw CloudWatch datapoint for one instance: a datetime (epoch
seconds) and the three statistics `Average`, `Maximum`, `Minimum`. -/
structure RawDatapoint where
  ts : ℕ
  average : ℚ
  maximum : ℚ
  minimum : ℚ
deriving DecidableEq, Repr

/-- The calendar day of a datetime (`strftime('%Y-%m-%d')` at day
granularity: the time-of-day component is dropped). -/
def RawDatapoint.day (d : RawDatapoint) : ℕ := d.ts / 86400

/-- One normalized daily observation, as produced by the exporter:
`timestamp` is a calendar day index, the statistics are rounded to 2
decimal places. -/
structure MetricPoint where
  timestamp : ℕ
  average : ℚ
  maximum : ℚ
  minimum : ℚ
deriving DecidableEq, Repr

/-- `sorted(response.Datapoints, key = fun x => x.Timestamp)` from
`fetch_cloudwatch_metrics`. -/
def sortDatapoints (l : List RawDatapoint) : List RawDatapoint :=
  l.insertionSort (fun a b => a.ts ≤ b.ts)

/-- The body of the normalization loop in `fetch_cloudwatch_metrics`:
format the timestamp as a calendar date and round each statistic to 2
decimal places. -/
def normalizePoint (d : RawDatapoint) : MetricPoint :=
  { timestamp := d.day
    average := round2 d.average
    maximum := round2 d.maximum
    minimum := round2 d.minimum }

/-- One instance's record in the export document: `instance_id`,
`cpu_data`, `month` (possibly the empty string), and the optional `error`
field set on per-instance retrieval failure. -/
structure InstanceMetrics where
  instance_id : String
  cpu_data : List MetricPoint
  month : String
  error : Option String
deriving DecidableEq, Repr

/-- `fetch_cloudwatch_metrics`: on a successful CloudWatch query, sort the
raw datapoints by timestamp and normalize each; on failure, return the
instance with empty `cpu_data` and the `error` field set.  `nowMonth` is
the current calendar month string (`strftime('%Y-%m')`), used for the
`month` field on both paths; the CloudWatch call itself is the external
collaborator, passed in as an `Except` outcome. -/
def fetch_cloudwatch_metrics (instance_id : String) (nowMonth : String)
    (src : Except String (List RawDatapoint)) : InstanceMetrics :=
  match src with
  | .ok dps =>
      { instance_id := instance_id
        cpu_data := (sortDatapoints dps).map normalizePoint
        month := nowMonth
        error := none }
  | .error e =>
      { instance_id := instance_id
        cpu_data := []
        month := nowMonth
        error := some e }

/-- The export artifact written to S3: month, export timestamp, and the
ordered sequence of per-instance records. -/
structure ExportDocument where
  month : String
  export_timestamp : String
  instances : List InstanceMetrics
deriving DecidableEq, Repr

/-- `store_in_s3` (pure part): resolve the document month — the current
month unless the list is non-empty and its FIRST element carries a
non-empty (truthy) `month`, in which case that first element's month —
then build the document and the S3 key `data/{month}/metrics.json`.
`nowMonth`/`nowIso` stand for `datetime.now()` formattings. -/
def store_in_s3 (metrics_data : List InstanceMetrics) (nowMonth nowIso : String) :
    ExportDocument × String :=
  let current_month :=
    match metrics_data with
    | [] => nowMonth
    | first :: _ => if first.month = "" then nowMonth else first.month
  (⟨current_month, nowIso, metrics_data⟩,
   "data/" ++ current_month ++ "/metrics.json")

/-- Modelled from the spec: the month-resolution rule as §4.2 words it —
"if at least one InstanceMetrics carries a non-empty `month`, use the
first such value; otherwise fall back to the current calendar month". -/
def specResolvedMonth (metrics_data : List InstanceMetrics) (nowMonth : String) : String :=
  (((metrics_data.map (·.month)).find? (fun m => decide (m ≠ ""))).getD nowMonth)

/-! ## Report stage (`src/lambda/report_generator/lambda_function.py`) -/

/-- One flattened row of the working table (`rows.append({...})` in
`process_metrics_with_pandas`); also reused for the display copy
`df_display`, whose `date` column is `strftime`-formatted back to the same
calendar date. -/
structure MetricRow where
  instance_id : String
  date : ℕ
  avg_cpu : ℚ
  max_cpu : ℚ
  min_cpu : ℚ
deriving DecidableEq, Repr

/-- The row built for one (instance, datapoint) pair. -/
def mkRow (instance_id : String) (p : MetricPoint) : MetricRow :=
  { instance_id := instance_id
    date := p.timestamp
    avg_cpu := p.average
    max_cpu := p.maximum
    min_cpu := p.minimum }

/-- `process_metrics_with_pandas`: the nested loop appending one row per
(instance, datapoint) pair; `pd.to_datetime` on the `date` column is the
identity on day indices.  An empty row list models the empty DataFrame. -/
def process_metrics_with_pandas (doc : ExportDocument) : List MetricRow :=
  doc.instances.foldl (fun rows im => rows ++ im.cpu_data.map (mkRow im.instance_id)) []

/-- pandas `Series.mean()`: sum over length. -/
def listMean (l : List ℚ) : ℚ := l.sum / l.length

/-- pandas `Series.max()` on a non-empty series (the empty case is never
used below: aggregation is guarded by non-emptiness). -/
def listMax : List ℚ → ℚ
  | [] => 0
  | x :: xs => xs.foldl max x

/-- pandas `Series.min()` on a non-empty series. -/
def listMin : List ℚ → ℚ
  | [] => 0
  | x :: xs => xs.foldl min x

/-- pandas `Series.nunique()`: number of distinct values. -/
def nunique (l : List String) : ℕ := l.dedup.length

/-- pandas `Series.std()` with the default `ddof = 1`, modelled up to the
square root: `none` exactly when pandas yields NaN (fewer than two
observations, division by `n - 1 = 0`); otherwise `some` of the sample
variance — the square of the standard deviation.  The square root of a
rational is irrational in general; only the definedness (NaN) structure of
this column is at stake in what follows, and it is unaffected by the
square root. -/
def sampleStd (l : List ℚ) : Option ℚ :=
  if l.length < 2 then none
  else some ((l.map (fun x => (x - listMean l) ^ 2)).sum / ((l.length : ℚ) - 1))

/-- One row of the Instance Summary table
(`df.groupby('instance_id').agg({...}).round(2)`). -/
structure SummaryRow where
  instance_id : String
  avg_cpu_mean : ℚ
  cpu_stddev : Option ℚ
  max_cpu : ℚ
  min_cpu : ℚ
  data_points : ℕ
deriving DecidableEq, Repr

/-- The group of rows for one instance id (`df[df['instance_id'] == x]`,
and the groups formed by `groupby('instance_id')`). -/
def groupRows (rows : List MetricRow) (x : String) : List MetricRow :=
  rows.filter (fun r => r.instance_id = x)

/-- The aggregated (and rounded) summary row for one group; NaN (`none`)
in the stddev column survives `.round(2)` untouched. -/
def summaryRowFor (rows : List MetricRow) (x : String) : SummaryRow :=
  let g := groupRows rows x
  { instance_id := x
    avg_cpu_mean := round2 (listMean (g.map (·.avg_cpu)))
    cpu_stddev := (sampleStd (g.map (·.avg_cpu))).map round2
    max_cpu := round2 (listMax (g.map (·.max_cpu)))
    min_cpu := round2 (listMin (g.map (·.min_cpu)))
    data_points := g.length }

/-- `groupby` group keys: the distinct instance ids, sorted (pandas
`groupby` defaults to `sort=True`). -/
def groupbyKeys (rows : List MetricRow) : List String :=
  ((rows.map (·.instance_id)).dedup).insertionSort (fun a b => a ≤ b)

/-- The Instance Summary table: one aggregated row per group key. -/
def instance_summary (rows : List MetricRow) : List SummaryRow :=
  (groupbyKeys rows).map (summaryRowFor rows)

/-- pandas `Series.unique()`: distinct values in order of first
appearance (a linear scan keeping each value the first time it is seen). -/
def pdUnique (l : List String) : List String :=
  l.foldl (fun acc x => if x ∈ acc then acc else acc ++ [x]) []

/-- How `DataFrame.to_html` renders the stddev cell: missing values print
as `NaN`. -/
def renderStdCell : Option ℚ → String
  | none => "NaN"
  | some v => toString v

/-- `generate_recommendations`: the ordered threshold rules, first match
wins, all comparisons strict. -/
def generate_recommendations (avg_cpu max_cpu : ℚ) : String :=
  if avg_cpu < 20 then
    "CPU utilization is low. Consider downsizing the instance type to reduce costs."
  else if avg_cpu > 80 then
    "CPU utilization is high. Consider upgrading to a larger instance type or implementing auto-scaling."
  else if max_cpu > 95 then
    "CPU spikes detected. Monitor for performance issues and consider implementing auto-scaling."
  else
    "CPU utilization appears to be within normal ranges."

/-- The four fixed messages, for readability in the statements below. -/
def lowMsg : String :=
  "CPU utilization is low. Consider downsizing the instance type to reduce costs."

def highMsg : String :=
  "CPU utilization is high. Consider upgrading to a larger instance type or implementing auto-scaling."

def spikeMsg : String :=
  "CPU spikes detected. Monitor for performance issues and consider implementing auto-scaling."

def normalMsg : String :=
  "CPU utilization appears to be within normal ranges."

/-- The display copy `df_display` of one row: values rounded to 2
decimals, the date `strftime`-formatted (identity on day indices). -/
def toDisplayRow (r : MetricRow) : MetricRow :=
  { r with
    avg_cpu := round2 r.avg_cpu
    max_cpu := round2 r.max_cpu
    min_cpu := round2 r.min_cpu }

/-- The Recommendations bullets: one per distinct instance id in order of
first appearance, each carrying the recommendation computed from that
group's (unrounded) mean `avg_cpu` and max `max_cpu`. -/
def recommendationItems (rows : List MetricRow) : List (String × String) :=
  (pdUnique (rows.map (·.instance_id))).map (fun x =>
    let g := groupRows rows x
    (x, generate_recommendations (listMean (g.map (·.avg_cpu)))
          (listMax (g.map (·.max_cpu)))))

/-- The structure of the rendered HTML document, section by section, in
the order `create_html_report` concatenates them.  The Executive Summary
carries its four metrics as displayed (`:.2f`, i.e. rounded to 2
decimals); the HTML boilerplate around each section carries no data and is
not modelled. -/
inductive ReportSection where
  | header (month : String)
  | execSummary (total_instances : ℕ) (avg_overall max_overall min_overall : ℚ)
  | noData
  | instanceSummaryTable (table : List SummaryRow)
  | dailyDetails (table : List MetricRow)
  | recommendations (items : List (String × String))
  | footer
deriving DecidableEq, Repr

/-- `create_html_report`: header, then — if the table is non-empty — the
Executive Summary, Instance Summary, Daily details and Recommendations
sections, else the No Data Available section; then the footer.  A total
function: it raises no error on any input. -/
def create_html_report (rows : List MetricRow) (month : String) : List ReportSection :=
  [.header month] ++
  (if rows.isEmpty then
    [.noData]
  else
    [.execSummary (nunique (rows.map (·.instance_id)))
        (round2 (listMean (rows.map (·.avg_cpu))))
        (round2 (listMax (rows.map (·.max_cpu))))
        (round2 (listMin (rows.map (·.min_cpu)))),
     .instanceSummaryTable (instance_summary rows),
     .dailyDetails (rows.map toDisplayRow),
     .recommendations (recommendationItems rows)]) ++
  [.footer]

/-- The Executive Summary section of a report, when present. -/
def execSummaryOf (rep : List ReportSection) : Option (ℕ × ℚ × ℚ × ℚ) :=
  rep.findSome? fun s =>
    match s with
    | .execSummary n a mx mn => some (n, a, mx, mn)
    | _ => none

/-- The Instance Summary table of a report, when present. -/
def instanceSummaryOf (rep : List ReportSection) : Option (List SummaryRow) :=
  rep.findSome? fun s =>
    match s with
    | .instanceSummaryTable t => some t
    | _ => none

/-- The Daily CPU Utilization Details table of a report, when present. -/
def dailyDetailsOf (rep : List ReportSection) : Option (List MetricRow) :=
  rep.findSome? fun s =>
    match s with
    | .dailyDetails t => some t
    | _ => none

/-- The Recommendations bullet list of a report, when present. -/
def recommendationsOf (rep : List ReportSection) : Option (List (String × String)) :=
  rep.findSome? fun s =>
    match s with
    | .recommendations items => some items
    | _ => none

/-! ## Notification dispatch and the Lambda handlers

Each Python notification helper wraps its whole body in `try/except` and
only reads `SNS_TOPIC_ARN` and calls `sns.publish`; the two collaborator
outcomes are passed in explicitly (`topic` — the environment variable, and
`publish` — the SNS call's result).  The helpers always return normally:
a missing topic is a skip, a publish failure is caught and logged. -/

inductive NotifyOutcome where
  | skipped
  | sent (message_id : String)
  | swallowed (e : String)
deriving DecidableEq, Repr

/-- `send_process_start_notification` (data exporter). -/
def send_process_start_notification (topic : Option String)
    (publish : Except String String) : NotifyOutcome :=
  match topic with
  | none => .skipped
  | some _ =>
    match publish with
    | .ok mid => .sent mid
    | .error e => .swallowed e

/-- `send_export_success_notification` (data exporter). -/
def send_export_success_notification (topic : Option String)
    (publish : Except String String) : NotifyOutcome :=
  match topic with
  | none => .skipped
  | some _ =>
    match publish with
    | .ok mid => .sent mid
    | .error e => .swallowed e

/-- `send_notification` (report generator); `success` selects the
success/failure message text and nothing else. -/
def send_notification (topic : Option String) (publish : Except String String)
    (_success : Bool) : NotifyOutcome :=
  match topic with
  | none => .skipped
  | some _ =>
    match publish with
    | .ok mid => .sent mid
    | .error e => .swallowed e

/-- The HTTP-style response each handler returns. -/
structure HandlerResponse where
  statusCode : ℕ
  key : Option String
deriving DecidableEq, Repr

/-- The external-collaborator outcomes of one exporter invocation:
per-instance CloudWatch query results (in instance order), wall-clock
month/timestamp strings, whether the S3 put succeeds, and the SNS
collaborator outcomes. -/
structure ExporterEnv where
  instances : List (String × Except String (List RawDatapoint))
  nowMonth : String
  nowIso : String
  storeOk : Bool
  topic : Option String
  startPublish : Except String String
  successPublish : Except String String
deriving Repr

/-- Side effects of one exporter invocation: what was stored (if the put
succeeded) and the notification outcomes. -/
structure ExporterEffects where
  stored : Option (ExportDocument × String)
  startNotify : NotifyOutcome
  successNotify : Option NotifyOutcome
deriving DecidableEq, Repr

/-- The exporter `lambda_handler`: send the start notification, fetch each
instance's metrics in order (per-instance failures are absorbed by
`fetch_cloudwatch_metrics`), store the batch, send the success
notification, invoke the report generator (which catches its own errors
and cannot fail the handler), and return 200; only a batch-level failure
(the S3 put raising) reaches the `except` branch and returns 500. -/
def exporter_lambda_handler (env : ExporterEnv) : HandlerResponse × ExporterEffects :=
  let startN := send_process_start_notification env.topic env.startPublish
  let all_metrics_data :=
    env.instances.map (fun p => fetch_cloudwatch_metrics p.1 env.nowMonth p.2)
  if env.storeOk then
    let stored := store_in_s3 all_metrics_data env.nowMonth env.nowIso
    let succN := send_export_success_notification env.topic env.successPublish
    (⟨200, some stored.2⟩, ⟨some stored, startN, some succN⟩)
  else
    (⟨500, none⟩, ⟨none, startN, none⟩)

/-- The external-collaborator outcomes of one report invocation. -/
structure ReportEnv where
  bucket_name : Option String
  s3_key : Option String
  download : Except String ExportDocument
  uploadOk : Bool
  topic : Option String
  publish : Except String String
deriving Repr

/-- `generate_pandas_report`: download, flatten, render, upload; any
collaborator failure propagates as an error. -/
def generate_pandas_report (download : Except String ExportDocument)
    (uploadOk : Bool) : Except String (List ReportSection × String) :=
  match download with
  | .error e => .error e
  | .ok doc =>
    let df := process_metrics_with_pandas doc
    let html := create_html_report df doc.month
    if uploadOk then .ok (html, "reports/" ++ doc.month ++ "-report.html")
    else .error "upload failed"

/-- The report `lambda_handler`: missing bucket/key raises `ValueError`;
any error reaches the `except` branch, which sends a failure notification
and returns 500; success sends a success notification and returns 200.
The notification outcome never influences the response. -/
def report_lambda_handler (env : ReportEnv) : HandlerResponse × NotifyOutcome :=
  match env.bucket_name, env.s3_key with
  | some _, some _ =>
    match generate_pandas_report env.download env.uploadOk with
    | .ok r => (⟨200, some r.2⟩, send_notification env.topic env.publish true)
    | .error _ => (⟨500, none⟩, send_notification env.topic env.publish false)
  | _, _ => (⟨500, none⟩, send_notification env.topic env.publish false)

/-! ## Helper lemmas -/

lemma isRound2_round2 (x : ℚ) : isRound2 (round2 x) := by
  unfold isRound2 round2
  rw [div_mul_cancel₀ _ (by norm_num : (100 : ℚ) ≠ 0), round_intCast]

lemma foldl_append_rows (instances : List InstanceMetrics) (init : List MetricRow) :
    instances.foldl (fun rows im => rows ++ im.cpu_data.map (mkRow im.instance_id)) init
      = init ++ instances.flatMap (fun im => im.cpu_data.map (mkRow im.instance_id)) := by
  induction instances generalizing init with
  | nil => simp
  | cons im tl ih => simp [ih]

lemma process_eq_flatMap (doc : ExportDocument) :
    process_metrics_with_pandas doc
      = doc.instances.flatMap (fun im => im.cpu_data.map (mkRow im.instance_id)) := by
  unfold process_metrics_with_pandas
  simpa using foldl_append_rows doc.instances []

lemma le_foldl_max (xs : List ℚ) (x : ℚ) :
    x ≤ xs.foldl max x ∧ ∀ y ∈ xs, y ≤ xs.foldl max x := by
  induction xs generalizing x with
  | nil => simp
  | cons a tl ih =>
    refine ⟨le_trans (le_max_left x a) (ih (max x a)).1, ?_⟩
    intro y hy
    rcases List.mem_cons.mp hy with rfl | hy
    · exact le_trans (le_max_right x y) (ih (max x y)).1
    · exact (ih (max x a)).2 y hy

lemma foldl_max_mem (xs : List ℚ) (x : ℚ) :
    xs.foldl max x = x ∨ xs.foldl max x ∈ xs := by
  induction xs generalizing x with
  | nil => left; rfl
  | cons a tl ih =>
    rw [List.foldl_cons]
    rcases ih (max x a) with h | h
    · rcases max_choice x a with hm | hm
      · left; rw [h, hm]
      · right; rw [h, hm]; exact List.mem_cons_self a tl
    · right; exact List.mem_cons_of_mem a h

lemma listMax_spec (l : List ℚ) (h : l ≠ []) :
    listMax l ∈ l ∧ ∀ y ∈ l, y ≤ listMax l := by
  cases l with
  | nil => exact absurd rfl h
  | cons x xs =>
    refine ⟨?_, ?_⟩
    · rcases foldl_max_mem xs x with h' | h'
      · rw [listMax, h']; exact List.mem_cons_self x xs
      · rw [listMax]; exact List.mem_cons_of_mem x h'
    · intro y hy
      rcases List.mem_cons.mp hy with rfl | hy
      · exact (le_foldl_max xs y).1
      · exact (le_foldl_max xs x).2 y hy

lemma foldl_min_le (xs : List ℚ) (x : ℚ) :
    xs.foldl min x ≤ x ∧ ∀ y ∈ xs, xs.foldl min x ≤ y := by
  induction xs generalizing x with
  | nil => simp
  | cons a tl ih =>
    refine ⟨le_trans (ih (min x a)).1 (min_le_left x a), ?_⟩
    intro y hy
    rcases List.mem_cons.mp hy with rfl | hy
    · exact le_trans (ih (min x y)).1 (min_le_right x y)
    · exact (ih (min x a)).2 y hy

lemma foldl_min_mem (xs : List ℚ) (x : ℚ) :
    xs.foldl min x = x ∨ xs.foldl min x ∈ xs := by
  induction xs generalizing x with
  | nil => left; rfl
  | cons a tl ih =>
    rw [List.foldl_cons]
    rcases ih (min x a) with h | h
    · rcases min_choice x a with hm | hm
      · left; rw [h, hm]
      · right; rw [h, hm]; exact List.mem_cons_self a tl
    · right; exact List.mem_cons_of_mem a h

lemma listMin_spec (l : List ℚ) (h : l ≠ []) :
    listMin l ∈ l ∧ ∀ y ∈ l, listMin l ≤ y := by
  cases l with
  | nil => exact absurd rfl h
  | cons x xs =>
    refine ⟨?_, ?_⟩
    · rcases foldl_min_mem xs x with h' | h'
      · rw [listMin, h']; exact List.mem_cons_self x xs
      · rw [listMin]; exact List.mem_cons_of_mem x h'
    · intro y hy
      rcases List.mem_cons.mp hy with rfl | hy
      · exact (foldl_min_le xs y).1
      · exact (foldl_min_le xs x).2 y hy

lemma pdUnique_go (l : List String) : ∀ acc : List String,
    ∃ t, l.foldl (fun acc x => if x ∈ acc then acc else acc ++ [x]) acc = acc ++ t ∧
      t.Sublist l ∧ t.Nodup ∧ (∀ y ∈ t, y ∉ acc) ∧
      (∀ y ∈ l, y ∈ acc ∨ y ∈ t) ∧
      t.Pairwise (fun a b => l.indexOf a < l.indexOf b) := by
  induction l with
  | nil =>
    intro acc
    exact ⟨[], by simp, by simp, by simp, by simp, by simp, by simp⟩
  | cons x xs ih =>
    intro acc
    by_cases hx : x ∈ acc
    · obtain ⟨t, ht, hsub, hnd, hnotin, hcov, hpw⟩ := ih acc
      refine ⟨t, ?_, List.sublist_cons_of_sublist x hsub, hnd, hnotin, ?_, ?_⟩
      · simpa [hx] using ht
      · intro y hy
        rcases List.mem_cons.mp hy with rfl | hy
        · exact Or.inl hx
        · exact hcov y hy
      · refine hpw.imp_of_mem ?_
        intro a b ha hb hab
        have hax : a ≠ x := fun h => (hnotin a ha) (h ▸ hx)
        have hbx : b ≠ x := fun h => (hnotin b hb) (h ▸ hx)
        rw [List.indexOf_cons_ne xs (Ne.symm hax), List.indexOf_cons_ne xs (Ne.symm hbx)]
        exact Nat.succ_lt_succ hab
    · obtain ⟨t, ht, hsub, hnd, hnotin, hcov, hpw⟩ := ih (acc ++ [x])
      refine ⟨x :: t, ?_, List.Sublist.cons₂ x hsub, ?_, ?_, ?_, ?_⟩
      · rw [List.foldl_cons, if_neg hx, ht, List.append_assoc, List.singleton_append]
      · refine List.nodup_cons.mpr ⟨fun hxt => ?_, hnd⟩
        exact (hnotin x hxt) (by simp)
      · intro y hy
        rcases List.mem_cons.mp hy with rfl | hy
        · exact hx
        · exact fun hyacc => (hnotin y hy) (List.mem_append_left _ hyacc)
      · intro y hy
        rcases List.mem_cons.mp hy with rfl | hy
        · exact Or.inr (List.mem_cons_self y t)
        · rcases hcov y hy with h | h
          · rcases List.mem_append.mp h with h | h
            · exact Or.inl h
            · simp only [List.mem_singleton] at h
              exact Or.inr (h ▸ List.mem_cons_self x t)
          · exact Or.inr (List.mem_cons_of_mem x h)
      · refine List.pairwise_cons.mpr ⟨?_, ?_⟩
        · intro b hb
          have hbx : b ≠ x := fun h => (hnotin b hb) (by simp [h])
          rw [List.indexOf_cons_self, List.indexOf_cons_ne xs (Ne.symm hbx)]
          exact Nat.succ_pos _
        · refine hpw.imp_of_mem ?_
          intro a b ha hb hab
          have hax : a ≠ x := fun h => (hnotin a ha) (by simp [h])
          have hbx : b ≠ x := fun h => (hnotin b hb) (by simp [h])
          rw [List.indexOf_cons_ne xs (Ne.symm hax), List.indexOf_cons_ne xs (Ne.symm hbx)]
          exact Nat.succ_lt_succ hab

lemma pdUnique_spec (l : List String) :
    (pdUnique l).Sublist l ∧ (pdUnique l).Nodup ∧ (∀ y, y ∈ pdUnique l ↔ y ∈ l) ∧
      (pdUnique l).Pairwise (fun a b => l.indexOf a < l.indexOf b) := by
  obtain ⟨t, ht, hsub, hnd, _, hcov, hpw⟩ := pdUnique_go l []
  have hpd : pdUnique l = t := by simpa [pdUnique] using ht
  rw [hpd]
  refine ⟨hsub, hnd, fun y => ⟨fun hy => hsub.subset hy, fun hy => ?_⟩, hpw⟩
  exact (hcov y hy).resolve_left (by simp)

instance : IsTotal RawDatapoint (fun a b => a.ts ≤ b.ts) :=
  ⟨fun a b => Nat.le_total a.ts b.ts⟩

instance : IsTrans RawDatapoint (fun a b => a.ts ≤ b.ts) :=
  ⟨fun _ _ _ h h' => Nat.le_trans h h'⟩

lemma sortDatapoints_sorted (l : List RawDatapoint) :
    (sortDatapoints l).Sorted (fun a b => a.ts ≤ b.ts) :=
  List.sorted_insertionSort _ l

lemma sortDatapoints_perm (l : List RawDatapoint) : (sortDatapoints l).Perm l :=
  List.perm_insertionSort _ l

lemma fetch_ok_timestamps (instance_id nowMonth : String) (dps : List RawDatapoint) :
    ((fetch_cloudwatch_metrics instance_id nowMonth (.ok dps)).cpu_data.map
        MetricPoint.timestamp)
      = (sortDatapoints dps).map RawDatapoint.day := by
  simp only [fetch_cloudwatch_metrics, List.map_map]
  exact List.map_congr_left fun a _ => rfl

lemma create_html_report_empty (month : String) :
    create_html_report [] month = [.header month, .noData, .footer] := rfl

lemma create_html_report_nonempty (rows : List MetricRow) (month : String)
    (h : rows ≠ []) :
    create_html_report rows month =
      [.header month,
       .execSummary (nunique (rows.map (·.instance_id)))
         (round2 (listMean (rows.map (·.avg_cpu))))
         (round2 (listMax (rows.map (·.max_cpu))))
         (round2 (listMin (rows.map (·.min_cpu)))),
       .instanceSummaryTable (instance_summary rows),
       .dailyDetails (rows.map toDisplayRow),
       .recommendations (recommendationItems rows),
       .footer] := by
  have he : rows.isEmpty = false := by simp [List.isEmpty_iff, h]
  simp [create_html_report, he]

lemma execSummaryOf_nonempty (rows : List MetricRow) (month : String) (h : rows ≠ []) :
    execSummaryOf (create_html_report rows month) =
      some (nunique (rows.map (·.instance_id)),
        round2 (listMean (rows.map (·.avg_cpu))),
        round2 (listMax (rows.map (·.max_cpu))),
        round2 (listMin (rows.map (·.min_cpu)))) := by
  rw [create_html_report_nonempty rows month h]; rfl

lemma instanceSummaryOf_nonempty (rows : List MetricRow) (month : String)
    (h : rows ≠ []) :
    instanceSummaryOf (create_html_report rows month) = some (instance_summary rows) := by
  rw [create_html_report_nonempty rows month h]; rfl

lemma dailyDetailsOf_nonempty (rows : List MetricRow) (month : String) (h : rows ≠ []) :
    dailyDetailsOf (create_html_report rows month) = some (rows.map toDisplayRow) := by
  rw [create_html_report_nonempty rows month h]; rfl

lemma recommendationsOf_nonempty (rows : List MetricRow) (month : String)
    (h : rows ≠ []) :
    recommendationsOf (create_html_report rows month) = some (recommendationItems rows) := by
  rw [create_html_report_nonempty rows month h]; rfl

lemma gr_eq (avg mx : ℚ) :
    generate_recommendations avg mx =
      if avg < 20 then lowMsg
      else if 80 < avg then highMsg
      else if 95 < mx then spikeMsg
      else normalMsg := rfl

lemma msgs_distinct :
    lowMsg ≠ highMsg ∧ lowMsg ≠ spikeMsg ∧ lowMsg ≠ normalMsg ∧
      highMsg ≠ spikeMsg ∧ highMsg ≠ normalMsg ∧ spikeMsg ≠ normalMsg := by
  refine ⟨?_, ?_, ?_, ?_, ?_, ?_⟩ <;> decide

/-! ## Claims -/

/-- C1: `generate_recommendations` maps one instance's (mean CPU, peak
CPU) to exactly one of the four fixed messages by ordered rules, first
match winning, all comparisons strict: mean < 20 gives the low message;
otherwise mean > 80 gives the high message (even when peak > 95);
otherwise peak > 95 gives the spike message; otherwise the normal message.
Mean exactly 20, mean exactly 80 and peak exactly 95 do not match their
rules. -/
theorem c1_recommendation_rules (avg mx : ℚ) :
    (avg < 20 → generate_recommendations avg mx = lowMsg) ∧
    (80 < avg → generate_recommendations avg mx = highMsg) ∧
    (20 ≤ avg → avg ≤ 80 → 95 < mx → generate_recommendations avg mx = spikeMsg) ∧
    (20 ≤ avg → avg ≤ 80 → mx ≤ 95 → generate_recommendations avg mx = normalMsg) ∧
    generate_recommendations 20 mx ≠ lowMsg ∧
    (generate_recommendations 80 mx ≠ lowMsg ∧ generate_recommendations 80 mx ≠ highMsg) ∧
    generate_recommendations avg 95 ≠ spikeMsg := by
  obtain ⟨d1, d2, d3, d4, d5, d6⟩ := msgs_distinct
  refine ⟨?_, ?_, ?_, ?_, ?_, ⟨?_, ?_⟩, ?_⟩
  · intro h; rw [gr_eq, if_pos h]
  · intro h
    rw [gr_eq, if_neg (by linarith), if_pos h]
  · intro h1 h2 h3
    rw [gr_eq, if_neg (by linarith), if_neg (by linarith), if_pos h3]
  · intro h1 h2 h3
    rw [gr_eq, if_neg (by linarith), if_neg (by linarith), if_neg (by linarith)]
  · rw [gr_eq, if_neg (lt_irrefl (20 : ℚ)), if_neg (by norm_num : ¬(80 : ℚ) < 20)]
    split_ifs with h1
    · exact fun h => d2 h.symm
    · exact fun h => d3 h.symm
  · rw [gr_eq, if_neg (by norm_num : ¬(80 : ℚ) < 20), if_neg (lt_irrefl (80 : ℚ))]
    split_ifs with h1
    · exact fun h => d2 h.symm
    · exact fun h => d3 h.symm
  · rw [gr_eq, if_neg (by norm_num : ¬(80 : ℚ) < 20), if_neg (lt_irrefl (80 : ℚ))]
    split_ifs with h1
    · exact fun h => d4 h.symm
    · exact fun h => d5 h.symm
  · rw [gr_eq]
    split_ifs with h1 h2 h3
    · exact d2
    · exact d4
    · exact absurd h3 (lt_irrefl _)
    · exact fun h => d6 h.symm

/-- Witness for C1: the theorem applied at concrete inputs, one per rule,
with every hypothesis discharged there. -/
theorem c1_recommendation_rules_witness :
    ((10 : ℚ) < 20 ∧ generate_recommendations 10 99 = lowMsg) ∧
    ((80 : ℚ) < 85 ∧ generate_recommendations 85 99 = highMsg) ∧
    ((20 : ℚ) ≤ 50 ∧ (50 : ℚ) ≤ 80 ∧ (95 : ℚ) < 99 ∧
      generate_recommendations 50 99 = spikeMsg) ∧
    ((20 : ℚ) ≤ 50 ∧ (50 : ℚ) ≤ 80 ∧ (90 : ℚ) ≤ 95 ∧
      generate_recommendations 50 90 = normalMsg) :=
  ⟨⟨by norm_num, (c1_recommendation_rules 10 99).1 (by norm_num)⟩,
   ⟨by norm_num, (c1_recommendation_rules 85 99).2.1 (by norm_num)⟩,
   ⟨by norm_num, by norm_num, by norm_num,
     (c1_recommendation_rules 50 99).2.2.1 (by norm_num) (by norm_num) (by norm_num)⟩,
   ⟨by norm_num, by norm_num, by norm_num,
     (c1_recommendation_rules 50 90).2.2.2.1 (by norm_num) (by norm_num) (by norm_num)⟩⟩

/-- C2 (counterexample): the claim says the document month is the month of
the FIRST InstanceMetrics CARRYING A NON-EMPTY MONTH; but `store_in_s3`
inspects only the first element of the list.  With a first element whose
month is empty and a second carrying "2024-01", the code falls back to the
current month "2024-02" while the claimed rule yields "2024-01". -/
theorem c2_month_counterexample :
    (store_in_s3 [⟨"i-1", [], "", none⟩, ⟨"i-2", [], "2024-01", none⟩]
        "2024-02" "t").1.month = "2024-02" ∧
    specResolvedMonth [⟨"i-1", [], "", none⟩, ⟨"i-2", [], "2024-01", none⟩]
        "2024-02" = "2024-01" ∧
    ("2024-02" : String) ≠ "2024-01" := by
  refine ⟨by decide, by decide, by decide⟩

/-- C2 (amended): the ExportDocument's month equals the FIRST
InstanceMetrics's month when the sequence is non-empty and that first
element's month is non-empty; otherwise (empty sequence, or first element
with empty month) it equals the current calendar month at aggregation
time.  The instances sequence is passed through unchanged. -/
theorem c2_month_first_element_rule (l : List InstanceMetrics) (now iso : String) :
    ((store_in_s3 l now iso).1.instances = l) ∧
    (∀ first rest, l = first :: rest → first.month ≠ "" →
        (store_in_s3 l now iso).1.month = first.month) ∧
    (l = [] → (store_in_s3 l now iso).1.month = now) ∧
    (∀ first rest, l = first :: rest → first.month = "" →
        (store_in_s3 l now iso).1.month = now) := by
  refine ⟨rfl, ?_, ?_, ?_⟩
  · rintro first rest rfl hne
    simp [store_in_s3, hne]
  · rintro rfl
    simp [store_in_s3]
  · rintro first rest rfl he
    simp [store_in_s3, he]

/-- Witness for C2's amended theorem at a concrete input. -/
theorem c2_month_first_element_rule_witness :
    ([(⟨"i-1", [], "2024-03", none⟩ : InstanceMetrics)]
        = (⟨"i-1", [], "2024-03", none⟩ : InstanceMetrics) :: []) ∧
    ("2024-03" : String) ≠ "" ∧
    (store_in_s3 [⟨"i-1", [], "2024-03", none⟩] "2024-02" "t").1.month = "2024-03" :=
  ⟨rfl, by decide,
    (c2_month_first_element_rule [⟨"i-1", [], "2024-03", none⟩] "2024-02" "t").2.1
      ⟨"i-1", [], "2024-03", none⟩ [] rfl (by decide)⟩

/-- C3 (counterexample): the normalizer sorts by the full datetime and
only then formats to a calendar date, so two raw datapoints falling on the
same day (here both on day 0, at different seconds) produce DUPLICATE
dates in the output — the claim's "contains no duplicate dates" fails for
this non-empty raw collection. -/
theorem c3_duplicate_dates_counterexample :
    ([⟨0, 1, 1, 1⟩, ⟨100, 2, 2, 2⟩] : List RawDatapoint) ≠ [] ∧
    ((fetch_cloudwatch_metrics "i-1" "2024-01"
        (.ok [⟨0, 1, 1, 1⟩, ⟨100, 2, 2, 2⟩])).cpu_data.map MetricPoint.timestamp)
      = [0, 0] ∧
    ¬ ((fetch_cloudwatch_metrics "i-1" "2024-01"
        (.ok [⟨0, 1, 1, 1⟩, ⟨100, 2, 2, 2⟩])).cpu_data.map MetricPoint.timestamp).Nodup := by
  refine ⟨by decide, by decide, by decide⟩

/-- C3 (amended): for every raw datapoint collection whose timestamps fall
on pairwise distinct calendar days, the normalizer's output point sequence
is strictly ascending by date (so sorted ascending with no duplicate
dates), every statistic is rounded to exactly 2 decimal places, every
timestamp is a calendar date obtained by dropping the time-of-day of some
raw timestamp, the number of points equals the number of raw datapoints,
no error is set, and an empty raw input yields an empty point sequence. -/
theorem c3_normalizer_output (instance_id nowMonth : String) (dps : List RawDatapoint)
    (hdays : dps.Pairwise (fun a b => a.day ≠ b.day)) :
    (((fetch_cloudwatch_metrics instance_id nowMonth (.ok dps)).cpu_data.map
        MetricPoint.timestamp).Pairwise (· < ·)) ∧
    (∀ p ∈ (fetch_cloudwatch_metrics instance_id nowMonth (.ok dps)).cpu_data,
        isRound2 p.average ∧ isRound2 p.maximum ∧ isRound2 p.minimum) ∧
    (∀ p ∈ (fetch_cloudwatch_metrics instance_id nowMonth (.ok dps)).cpu_data,
        ∃ d ∈ dps, p.timestamp = d.day) ∧
    ((fetch_cloudwatch_metrics instance_id nowMonth (.ok dps)).cpu_data.length
        = dps.length) ∧
    ((fetch_cloudwatch_metrics instance_id nowMonth (.ok dps)).error = none) ∧
    (dps = [] → (fetch_cloudwatch_metrics instance_id nowMonth (.ok dps)).cpu_data = []) := by
  refine ⟨?_, ?_, ?_, ?_, rfl, ?_⟩
  · rw [fetch_ok_timestamps]
    have hle : (sortDatapoints dps).Pairwise (fun a b => a.day ≤ b.day) :=
      (sortDatapoints_sorted dps).imp (fun h => Nat.div_le_div_right h)
    have hne : (sortDatapoints dps).Pairwise (fun a b => a.day ≠ b.day) :=
      ((sortDatapoints_perm dps).pairwise_iff (fun h => Ne.symm h)).mpr hdays
    have hlt : (sortDatapoints dps).Pairwise (fun a b => a.day < b.day) :=
      (hle.and hne).imp (fun h => lt_of_le_of_ne h.1 h.2)
    exact hlt.map RawDatapoint.day (fun a b h => h)
  · intro p hp
    simp only [fetch_cloudwatch_metrics] at hp
    obtain ⟨d, _, rfl⟩ := List.mem_map.mp hp
    exact ⟨isRound2_round2 _, isRound2_round2 _, isRound2_round2 _⟩
  · intro p hp
    simp only [fetch_cloudwatch_metrics] at hp
    obtain ⟨d, hd, rfl⟩ := List.mem_map.mp hp
    exact ⟨d, ((sortDatapoints_perm dps).mem_iff).mp hd, rfl⟩
  · simp [fetch_cloudwatch_metrics, (sortDatapoints_perm dps).length_eq]
  · rintro rfl
    rfl

/-- Witness for C3's amended theorem: two datapoints on distinct days
(days 2 and 0), given unsorted; the output dates are strictly ascending. -/
theorem c3_normalizer_output_witness :
    ([⟨200000, 5/4, 10, 1⟩, ⟨10, 3, 7, 2⟩] : List RawDatapoint).Pairwise
        (fun a b => a.day ≠ b.day) ∧
    (((fetch_cloudwatch_metrics "i-1" "2024-01"
        (.ok [⟨200000, 5/4, 10, 1⟩, ⟨10, 3, 7, 2⟩])).cpu_data.map
          MetricPoint.timestamp).Pairwise (· < ·)) :=
  ⟨by decide,
    (c3_normalizer_output "i-1" "2024-01" [⟨200000, 5/4, 10, 1⟩, ⟨10, 3, 7, 2⟩]
      (by decide)).1⟩

/-- C4: with the batch-level collaborators healthy (the S3 put succeeds),
a per-instance CloudWatch failure is recovered locally: the instance is
recorded at its position with the `error` field and empty data, every
instance is processed in order, the batch returns status 200, and every
recorded instance with `error` set has an empty point sequence. -/
theorem c4_per_instance_error_recovery (env : ExporterEnv) (h : env.storeOk = true) :
    ((exporter_lambda_handler env).1.statusCode = 200) ∧
    (∃ doc key, (exporter_lambda_handler env).2.stored = some (doc, key) ∧
      doc.instances.length = env.instances.length ∧
      (∀ (i : ℕ) (instance_id e : String),
          env.instances[i]? = some (instance_id, .error e) →
          doc.instances[i]? = some ⟨instance_id, [], env.nowMonth, some e⟩) ∧
      (∀ im ∈ doc.instances, im.error.isSome → im.cpu_data = [])) := by
  have hstatus : (exporter_lambda_handler env).1.statusCode = 200 := by
    simp [exporter_lambda_handler, h]
  have hstored : (exporter_lambda_handler env).2.stored
      = some (store_in_s3
          (env.instances.map fun p => fetch_cloudwatch_metrics p.1 env.nowMonth p.2)
          env.nowMonth env.nowIso) := by
    simp [exporter_lambda_handler, h]
  refine ⟨hstatus,
    (store_in_s3
      (env.instances.map fun p => fetch_cloudwatch_metrics p.1 env.nowMonth p.2)
      env.nowMonth env.nowIso).1,
    (store_in_s3
      (env.instances.map fun p => fetch_cloudwatch_metrics p.1 env.nowMonth p.2)
      env.nowMonth env.nowIso).2,
    by rw [hstored], ?_, ?_, ?_⟩
  · exact List.length_map _ _
  · intro i instance_id e hi
    show (env.instances.map
        (fun p => fetch_cloudwatch_metrics p.1 env.nowMonth p.2))[i]? = _
    rw [List.getElem?_map, hi]
    rfl
  · intro im him hsome
    have him' : im ∈ env.instances.map
        (fun p => fetch_cloudwatch_metrics p.1 env.nowMonth p.2) := him
    obtain ⟨⟨pid, psrc⟩, _, rfl⟩ := List.mem_map.mp him'
    cases psrc with
    | ok dps => simp [fetch_cloudwatch_metrics] at hsome
    | error e => rfl

/-- Witness for C4: one healthy instance and one whose CloudWatch query
fails; the handler still returns 200. -/
theorem c4_per_instance_error_recovery_witness :
    (⟨[("i-1", .ok [⟨0, 10, 15, 5⟩]), ("i-2", .error "throttled")],
        "2024-01", "t", true, none, .ok "m1", .ok "m2"⟩ : ExporterEnv).storeOk = true ∧
    (exporter_lambda_handler
        ⟨[("i-1", .ok [⟨0, 10, 15, 5⟩]), ("i-2", .error "throttled")],
          "2024-01", "t", true, none, .ok "m1", .ok "m2"⟩).1.statusCode = 200 :=
  ⟨rfl,
    (c4_per_instance_error_recovery
      ⟨[("i-1", .ok [⟨0, 10, 15, 5⟩]), ("i-2", .error "throttled")],
        "2024-01", "t", true, none, .ok "m1", .ok "m2"⟩ rfl).1⟩

/-- C5: the flattener emits exactly one MetricRow per (InstanceMetrics,
MetricPoint) pair — the table is the in-order expansion of the document,
each row carrying the instance's identifier and the point's date, average,
maximum and minimum — and an instance id all of whose InstanceMetrics have
an empty point sequence (in particular error cases) contributes zero rows
and is absent from the table and from every downstream table (groupby
keys, unique ids). -/
theorem c5_flattener_rows (doc : ExportDocument) :
    (process_metrics_with_pandas doc
        = doc.instances.flatMap (fun im => im.cpu_data.map (mkRow im.instance_id))) ∧
    ((process_metrics_with_pandas doc).length
        = (doc.instances.map (fun im => im.cpu_data.length)).sum) ∧
    (∀ x, (∀ im ∈ doc.instances, im.instance_id = x → im.cpu_data = []) →
        x ∉ (process_metrics_with_pandas doc).map MetricRow.instance_id ∧
        x ∉ pdUnique ((process_metrics_with_pandas doc).map MetricRow.instance_id) ∧
        x ∉ groupbyKeys (process_metrics_with_pandas doc)) := by
  have hflat := process_eq_flatMap doc
  refine ⟨hflat, ?_, ?_⟩
  · rw [hflat]
    simp [Function.comp_def]
  · intro x hx
    have hmem : x ∉ (process_metrics_with_pandas doc).map MetricRow.instance_id := by
      intro hmem
      obtain ⟨r, hr, hrx⟩ := List.mem_map.mp hmem
      rw [hflat] at hr
      obtain ⟨im, him, hrim⟩ := List.mem_flatMap.mp hr
      obtain ⟨p, hp, rfl⟩ := List.mem_map.mp hrim
      have : im.cpu_data = [] := hx im him (by simpa [mkRow] using hrx)
      rw [this] at hp
      exact List.not_mem_nil p hp
    refine ⟨hmem, ?_, ?_⟩
    · intro hmem'
      exact hmem (((pdUnique_spec _).2.2.1 x).mp hmem')
    · intro hmem'
      rw [groupbyKeys, List.mem_insertionSort, List.mem_dedup] at hmem'
      exact hmem hmem'

/-- Witness for C5: a document with one healthy instance and one errored
instance with empty data; the errored id is absent from the table. -/
theorem c5_flattener_rows_witness :
    (∀ im ∈ (⟨"2024-01", "t",
        [⟨"i-1", [⟨0, 10, 15, 5⟩], "2024-01", none⟩,
         ⟨"i-2", [], "2024-01", some "boom"⟩]⟩ : ExportDocument).instances,
        im.instance_id = "i-2" → im.cpu_data = []) ∧
    "i-2" ∉ (process_metrics_with_pandas
        ⟨"2024-01", "t",
          [⟨"i-1", [⟨0, 10, 15, 5⟩], "2024-01", none⟩,
           ⟨"i-2", [], "2024-01", some "boom"⟩]⟩).map MetricRow.instance_id :=
  ⟨by decide,
    ((c5_flattener_rows
      ⟨"2024-01", "t",
        [⟨"i-1", [⟨0, 10, 15, 5⟩], "2024-01", none⟩,
         ⟨"i-2", [], "2024-01", some "boom"⟩]⟩).2.2 "i-2" (by decide)).1⟩

/-- C6: the Executive Summary is emitted exactly when the row table is
non-empty, and its four displayed metrics are the number of distinct
instance ids, the arithmetic mean of `avg_cpu` over all rows, the maximum
of `max_cpu` over all rows and the minimum of `min_cpu` over all rows,
each rounded to 2 decimals for display; the max/min are attained bounds
and the distinct count is the cardinality of the set of ids. -/
theorem c6_executive_summary (rows : List MetricRow) (month : String) :
    (rows = [] → execSummaryOf (create_html_report rows month) = none) ∧
    (rows ≠ [] →
      execSummaryOf (create_html_report rows month)
          = some (nunique (rows.map (·.instance_id)),
              round2 (listMean (rows.map (·.avg_cpu))),
              round2 (listMax (rows.map (·.max_cpu))),
              round2 (listMin (rows.map (·.min_cpu)))) ∧
      nunique (rows.map (·.instance_id)) = (rows.map (·.instance_id)).toFinset.card ∧
      listMean (rows.map (·.avg_cpu))
          = (rows.map (·.avg_cpu)).sum / (rows.length : ℚ) ∧
      (listMax (rows.map (·.max_cpu)) ∈ rows.map (·.max_cpu) ∧
        ∀ v ∈ rows.map (·.max_cpu), v ≤ listMax (rows.map (·.max_cpu))) ∧
      (listMin (rows.map (·.min_cpu)) ∈ rows.map (·.min_cpu) ∧
        ∀ v ∈ rows.map (·.min_cpu), listMin (rows.map (·.min_cpu)) ≤ v)) := by
  constructor
  · rintro rfl
    rfl
  · intro h
    have hmap : ∀ (f : MetricRow → ℚ), rows.map f ≠ [] := by
      intro f hf
      exact h (List.map_eq_nil_iff.mp hf)
    refine ⟨execSummaryOf_nonempty rows month h,
      (List.card_toFinset _).symm, ?_, listMax_spec _ (hmap _), listMin_spec _ (hmap _)⟩
    simp [listMean, List.length_map]

/-- Witness for C6 at a one-row table: the summary is present and equals
(1 instance, avg 10, max 15, min 5). -/
theorem c6_executive_summary_witness :
    ([(⟨"i-1", 0, 10, 15, 5⟩ : MetricRow)] ≠ []) ∧
    execSummaryOf (create_html_report [⟨"i-1", 0, 10, 15, 5⟩] "2024-01")
      = some (1, 10, 15, 5) :=
  ⟨by decide, by
    rw [((c6_executive_summary [⟨"i-1", 0, 10, 15, 5⟩] "2024-01").2 (by decide)).1]
    norm_num [nunique, listMean, listMax, listMin, round2]⟩

/-- C7: when the flattened row table is empty, the rendered report is
still a complete document — header first, footer last — whose body is the
"No Data Available" section in place of the Executive Summary, Instance
Summary, Daily details and Recommendations sections, and report
generation completes without error (with a healthy upload it returns the
report and its S3 key). -/
theorem c7_no_data_report (doc : ExportDocument)
    (h : process_metrics_with_pandas doc = []) :
    ReportSection.noData
        ∈ create_html_report (process_metrics_with_pandas doc) doc.month ∧
    execSummaryOf (create_html_report (process_metrics_with_pandas doc) doc.month)
        = none ∧
    instanceSummaryOf (create_html_report (process_metrics_with_pandas doc) doc.month)
        = none ∧
    dailyDetailsOf (create_html_report (process_metrics_with_pandas doc) doc.month)
        = none ∧
    recommendationsOf (create_html_report (process_metrics_with_pandas doc) doc.month)
        = none ∧
    (create_html_report (process_metrics_with_pandas doc) doc.month).head?
        = some (.header doc.month) ∧
    (create_html_report (process_metrics_with_pandas doc) doc.month).getLast?
        = some .footer ∧
    generate_pandas_report (.ok doc) true
        = .ok (create_html_report (process_metrics_with_pandas doc) doc.month,
            "reports/" ++ doc.month ++ "-report.html") := by
  rw [h, create_html_report_empty]
  refine ⟨by simp, rfl, rfl, rfl, rfl, rfl, rfl, ?_⟩
  show generate_pandas_report (.ok doc) true = _
  rw [generate_pandas_report, h, create_html_report_empty]
  rfl

/-- Witness for C7: a document whose only instance errored (empty data);
the report contains the No Data Available section. -/
theorem c7_no_data_report_witness :
    process_metrics_with_pandas
        ⟨"2024-01", "t", [⟨"i-1", [], "2024-01", some "boom"⟩]⟩ = [] ∧
    ReportSection.noData ∈ create_html_report
        (process_metrics_with_pandas
          ⟨"2024-01", "t", [⟨"i-1", [], "2024-01", some "boom"⟩]⟩)
        (⟨"2024-01", "t", [⟨"i-1", [], "2024-01", some "boom"⟩]⟩ : ExportDocument).month :=
  ⟨by decide,
    (c7_no_data_report ⟨"2024-01", "t", [⟨"i-1", [], "2024-01", some "boom"⟩]⟩
      (by decide)).1⟩

/-- C8: a failure inside notification dispatch never reaches the
invocation result: in both Lambdas the handler's response (and, for the
exporter, what was stored) is the same whatever the topic configuration
and whatever the publish outcome, and with no topic configured every
notification helper skips without error. -/
theorem c8_notifications_never_propagate :
    (∀ (env : ExporterEnv) (t : Option String) (p q : Except String String),
        (exporter_lambda_handler
            { env with topic := t, startPublish := p, successPublish := q }).1
          = (exporter_lambda_handler env).1 ∧
        (exporter_lambda_handler
            { env with topic := t, startPublish := p, successPublish := q }).2.stored
          = (exporter_lambda_handler env).2.stored) ∧
    (∀ (env : ReportEnv) (t : Option String) (p : Except String String),
        (report_lambda_handler { env with topic := t, publish := p }).1
          = (report_lambda_handler env).1) ∧
    (∀ p, send_process_start_notification none p = .skipped) ∧
    (∀ p, send_export_success_notification none p = .skipped) ∧
    (∀ p b, send_notification none p b = .skipped) := by
  refine ⟨?_, ?_, fun p => rfl, fun p => rfl, fun p b => rfl⟩
  · intro env t p q
    cases hs : env.storeOk <;> constructor <;> simp [exporter_lambda_handler, hs]
  · intro env t p
    rcases env with ⟨b, k, dl, up, tp, pb⟩
    cases b <;> cases k <;> try rfl
    cases hg : generate_pandas_report dl up <;>
      simp [report_lambda_handler, hg]

/-- C9: a group with exactly one row gets the sample (ddof = 1) standard
deviation, which is NaN for a single observation; the NaN survives the
`.round(2)` and the Instance Summary's CPU StdDev cell for that instance
renders as "NaN". -/
theorem c9_single_row_group_stddev_nan (rows : List MetricRow) (month x : String)
    (h : (groupRows rows x).length = 1) :
    ∃ tbl, instanceSummaryOf (create_html_report rows month) = some tbl ∧
      ∃ sr, sr ∈ tbl ∧ sr.instance_id = x ∧ sr.cpu_stddev = none ∧
        renderStdCell sr.cpu_stddev = "NaN" := by
  have hg : groupRows rows x ≠ [] := by
    intro hnil
    rw [hnil] at h
    exact absurd h (by simp)
  obtain ⟨r, hr⟩ := List.exists_mem_of_ne_nil _ hg
  have hrrows : r ∈ rows := List.mem_of_mem_filter hr
  have hrx : r.instance_id = x := by
    have := List.of_mem_filter hr
    simpa using this
  have hne : rows ≠ [] := by
    intro hnil
    rw [hnil] at hrrows
    exact List.not_mem_nil r hrrows
  refine ⟨instance_summary rows, instanceSummaryOf_nonempty rows month hne, ?_⟩
  have hxids : x ∈ rows.map (·.instance_id) := List.mem_map.mpr ⟨r, hrrows, hrx⟩
  have hxkeys : x ∈ groupbyKeys rows := by
    rw [groupbyKeys, List.mem_insertionSort, List.mem_dedup]
    exact hxids
  refine ⟨summaryRowFor rows x, List.mem_map_of_mem _ hxkeys, rfl, ?_, ?_⟩
  · have hstd : sampleStd ((groupRows rows x).map (·.avg_cpu)) = none := by
      rw [sampleStd, if_pos]
      rw [List.length_map, h]
      norm_num
    simp [summaryRowFor, hstd]
  · have hstd : sampleStd ((groupRows rows x).map (·.avg_cpu)) = none := by
      rw [sampleStd, if_pos]
      rw [List.length_map, h]
      norm_num
    simp [summaryRowFor, hstd, renderStdCell]

/-- Witness for C9: "i-1" has exactly one row among three. -/
theorem c9_single_row_group_stddev_nan_witness :
    (groupRows [⟨"i-1", 0, 10, 15, 5⟩, ⟨"i-2", 0, 20, 25, 15⟩,
        ⟨"i-2", 1, 30, 35, 25⟩] "i-1").length = 1 ∧
    (∃ tbl, instanceSummaryOf (create_html_report
          [⟨"i-1", 0, 10, 15, 5⟩, ⟨"i-2", 0, 20, 25, 15⟩, ⟨"i-2", 1, 30, 35, 25⟩]
          "2024-01") = some tbl ∧
      ∃ sr, sr ∈ tbl ∧ sr.instance_id = "i-1" ∧ sr.cpu_stddev = none ∧
        renderStdCell sr.cpu_stddev = "NaN") :=
  ⟨by decide,
    c9_single_row_group_stddev_nan
      [⟨"i-1", 0, 10, 15, 5⟩, ⟨"i-2", 0, 20, 25, 15⟩, ⟨"i-2", 1, 30, 35, 25⟩]
      "2024-01" "i-1" (by decide)⟩

/-- C10: flattening preserves document order — the table is the
concatenation, instance by instance in document order, of each instance's
points in sequence order; the Daily details table renders exactly these
rows in this order (display-formatted); and the Recommendations bullets
list the distinct instance ids in order of first appearance in the table
(their list is duplicate-free, covers exactly the ids present, and is
ordered by first occurrence index). -/
theorem c10_order_preservation (doc : ExportDocument)
    (h : process_metrics_with_pandas doc ≠ []) :
    (process_metrics_with_pandas doc
        = doc.instances.flatMap (fun im => im.cpu_data.map (mkRow im.instance_id))) ∧
    dailyDetailsOf (create_html_report (process_metrics_with_pandas doc) doc.month)
        = some ((process_metrics_with_pandas doc).map toDisplayRow) ∧
    (∃ items,
      recommendationsOf (create_html_report (process_metrics_with_pandas doc) doc.month)
          = some items ∧
      items.map Prod.fst
          = pdUnique ((process_metrics_with_pandas doc).map (·.instance_id)) ∧
      (items.map Prod.fst).Nodup ∧
      (∀ y, y ∈ items.map Prod.fst
          ↔ y ∈ (process_metrics_with_pandas doc).map (·.instance_id)) ∧
      (items.map Prod.fst).Pairwise
        (fun a b =>
          ((process_metrics_with_pandas doc).map (·.instance_id)).indexOf a
            < ((process_metrics_with_pandas doc).map (·.instance_id)).indexOf b)) := by
  refine ⟨process_eq_flatMap doc, dailyDetailsOf_nonempty _ _ h, ?_⟩
  refine ⟨recommendationItems (process_metrics_with_pandas doc),
    recommendationsOf_nonempty _ _ h, ?_⟩
  have hfst : (recommendationItems (process_metrics_with_pandas doc)).map Prod.fst
      = pdUnique ((process_metrics_with_pandas doc).map (·.instance_id)) := by
    rw [recommendationItems, List.map_map]
    exact List.map_id _
  obtain ⟨_, hnd, hmem, hpw⟩ := pdUnique_spec
    ((process_metrics_with_pandas doc).map (·.instance_id))
  rw [hfst]
  exact ⟨rfl, hnd, hmem, hpw⟩

/-- Witness for C10: two instances, the Daily details table is the
in-order display copy of the flattened rows. -/
theorem c10_order_preservation_witness :
    process_metrics_with_pandas
        ⟨"2024-01", "t",
          [⟨"i-1", [⟨0, 10, 15, 5⟩, ⟨1, 20, 25, 15⟩], "2024-01", none⟩,
           ⟨"i-2", [⟨0, 30, 35, 25⟩], "2024-01", none⟩]⟩ ≠ [] ∧
    dailyDetailsOf (create_html_report
        (process_metrics_with_pandas
          ⟨"2024-01", "t",
            [⟨"i-1", [⟨0, 10, 15, 5⟩, ⟨1, 20, 25, 15⟩], "2024-01", none⟩,
             ⟨"i-2", [⟨0, 30, 35, 25⟩], "2024-01", none⟩]⟩)
        (⟨"2024-01", "t",
            [⟨"i-1", [⟨0, 10, 15, 5⟩, ⟨1, 20, 25, 15⟩], "2024-01", none⟩,
             ⟨"i-2", [⟨0, 30, 35, 25⟩], "2024-01", none⟩]⟩ : ExportDocument).month)
      = some ((process_metrics_with_pandas
          ⟨"2024-01", "t",
            [⟨"i-1", [⟨0, 10, 15, 5⟩, ⟨1, 20, 25, 15⟩], "2024-01", none⟩,
             ⟨"i-2", [⟨0, 30, 35, 25⟩], "2024-01", none⟩]⟩).map toDisplayRow) :=
  ⟨by decide,
    (c10_order_preservation
      ⟨"2024-01", "t",
        [⟨"i-1", [⟨0, 10, 15, 5⟩, ⟨1, 20, 25, 15⟩], "2024-01", none⟩,
         ⟨"i-2", [⟨0, 30, 35, 25⟩], "2024-01", none⟩]⟩ (by decide)).2.1⟩

end EC2Reports
